import Mathlib

/-!
Shallow embedding of the core of nbbaier/shell-ai: the request ledger
(`logger/logger.go`), the cost estimator, the stream decoder and the
LLM client orchestration (`llm.go`).

Modelling conventions:
- Go `int` / `int64` are `Int`; Go `float64` arithmetic is modelled by
  exact rational arithmetic over `ℚ` (the claims under scrutiny compare
  real-valued formulas, and every gap we exhibit is far larger than any
  float64 rounding error).
- Go `time.Time` is modelled by `GoTime` (seconds plus nanoseconds);
  `Format(time.RFC3339)` keeps only the seconds, which is what the
  `datetime_utc` column stores.
- The SQLite store is modelled as an in-memory list of rows of the
  `responses` table; `id TEXT PRIMARY KEY` makes an insert with a
  duplicate id fail and leave the store unchanged.
- Go slices are given value semantics (Lean lists).
- The network is external: the HTTP outcome (transport failure, or a
  status code plus the lines of the body) is a parameter of the embedded
  functions, and the verdict of the JSON parser on each `data:` line is part
  of the representation of the line (`StreamLine`).
-/

/-- A chat message, `types.Message` (role plus content). -/
structure Message where
  role : String
  content : String
deriving Repr, DecidableEq

/-- Token usage, the anonymous usage struct threaded through `llm.go`. -/
structure Usage where
  promptTokens : Int
  completionTokens : Int
  totalTokens : Int
deriving Repr, DecidableEq

/-- Go `time.Time`: seconds since epoch plus nanoseconds. -/
structure GoTime where
  sec : Int
  nsec : Nat
deriving Repr, DecidableEq

/-- `types.LogEntry`. `estimatedCost` models the Go `float64` field over `ℚ`. -/
structure LogEntry where
  timestamp : GoTime
  model : String
  messages : List Message
  response : String
  promptTokens : Int
  completionTokens : Int
  totalTokens : Int
  estimatedCost : ℚ
  requestID : String
  durationMs : Int
  error : String
deriving Repr, DecidableEq

/-- `types.ModelPricing` (per one million tokens). -/
structure ModelPricing where
  inputPerMillion : ℚ
  outputPerMillion : ℚ
deriving Repr, DecidableEq

/-- The fixed pricing map `modelPricing` of `logger/logger.go`. -/
def modelPricing : String → Option ModelPricing
  | "gpt-4.1" => some { inputPerMillion := 2.50, outputPerMillion := 10.00 }
  | "gpt-4.1-mini" => some { inputPerMillion := 0.15, outputPerMillion := 0.60 }
  | "gpt-4o" => some { inputPerMillion := 2.50, outputPerMillion := 10.00 }
  | "gpt-4o-mini" => some { inputPerMillion := 0.15, outputPerMillion := 0.60 }
  | "gpt-4-turbo" => some { inputPerMillion := 10.00, outputPerMillion := 30.00 }
  | "gpt-4" => some { inputPerMillion := 30.00, outputPerMillion := 60.00 }
  | "gpt-3.5-turbo" => some { inputPerMillion := 0.50, outputPerMillion := 1.50 }
  | _ => none

/-- `logger.CalculateCost`: cost in USD from token counts; unknown model gives 0. -/
def CalculateCost (model : String) (promptTokens completionTokens : Int) : ℚ :=
  match modelPricing model with
  | none => 0
  | some pricing =>
      (promptTokens : ℚ) / 1000000 * pricing.inputPerMillion +
      (completionTokens : ℚ) / 1000000 * pricing.outputPerMillion

/-- `logger.CreateLogEntry`: builds a `LogEntry`; a non-nil Go error is
modelled as `some msg` where `msg` is the text of `err.Error()`. -/
def CreateLogEntry (now : GoTime) (model : String) (messages : List Message)
    (response : String) (usage : Usage) (requestID : String) (durationMs : Int)
    (err : Option String) : LogEntry :=
  { timestamp := now
    model := model
    messages := messages
    response := response
    promptTokens := usage.promptTokens
    completionTokens := usage.completionTokens
    totalTokens := usage.totalTokens
    estimatedCost := CalculateCost model usage.promptTokens usage.completionTokens
    requestID := requestID
    durationMs := durationMs
    error := match err with | some msg => msg | none => "" }

/-- One row of the `responses` table created by `initSchema`.  The schema has
no `error` and no `total_tokens` column; `datetime_utc` stores the RFC3339
string, which carries second granularity only, so it is modelled by the
seconds value. -/
structure ResponseRow where
  id : String
  model : String
  prompt : String
  system : String
  response : String
  conversationId : Option String
  durationMs : Int
  datetimeUtc : Int
  inputTokens : Int
  outputTokens : Int
  estimatedCost : ℚ
deriving Repr, DecidableEq

/-- The loop at the top of `LogResponse`: the last system message wins the
`system` column, the last user message wins the `prompt` column. -/
def extractSystemPrompt (messages : List Message) : String × String :=
  messages.foldl
    (fun acc msg =>
      if msg.role == "system" then (msg.content, acc.2)
      else if msg.role == "user" then (acc.1, msg.content)
      else acc)
    ("", "")

/-- The row that `LogResponse` inserts for an entry. -/
def entryToRow (entry : LogEntry) : ResponseRow :=
  { id := entry.requestID
    model := entry.model
    prompt := (extractSystemPrompt entry.messages).2
    system := (extractSystemPrompt entry.messages).1
    response := entry.response
    conversationId := none
    durationMs := entry.durationMs
    datetimeUtc := entry.timestamp.sec
    inputTokens := entry.promptTokens
    outputTokens := entry.completionTokens
    estimatedCost := entry.estimatedCost }

/-- `logger.RequestLogger`: the `enabled` flag plus the state of the
`responses` table (the open database handle). -/
structure RequestLogger where
  enabled : Bool
  rows : List ResponseRow
deriving Repr, DecidableEq

/-- `logger.NewRequestLogger`, parameterised by the value of the
`SHELL_AI_DISABLE_LOGGING` environment variable.  Filesystem failures on the
enabled path (home dir, mkdir, open) are external-environment conditions the
claims do not touch; the enabled path is modelled as opening a fresh store. -/
def NewRequestLogger (env : String) : Except String RequestLogger :=
  if env != "" then Except.ok { enabled := false, rows := [] }
  else Except.ok { enabled := true, rows := [] }

/-- `logger.LogResponse`: no-op on a disabled logger; otherwise an SQL INSERT
into `responses`, which fails (UNIQUE constraint on the primary key `id`)
when a row with the same id exists, leaving the table unchanged. -/
def LogResponse (l : RequestLogger) (entry : LogEntry) : Except String RequestLogger :=
  if !l.enabled then Except.ok l
  else if l.rows.any (fun r => r.id == entry.requestID) then
    Except.error "UNIQUE constraint failed: responses.id"
  else Except.ok { l with rows := l.rows ++ [entryToRow entry] }

/-- Insertion into a list kept in descending `datetime_utc` order. -/
def insertRowDesc (r : ResponseRow) : List ResponseRow → List ResponseRow
  | [] => [r]
  | x :: xs => if r.datetimeUtc ≤ x.datetimeUtc then x :: insertRowDesc r xs
               else r :: x :: xs

/-- `ORDER BY datetime_utc DESC` (ties are store-defined; the claims do not
depend on tie order). -/
def sortRowsDesc : List ResponseRow → List ResponseRow
  | [] => []
  | x :: xs => insertRowDesc x (sortRowsDesc xs)

/-- The per-row reconstruction in `GetRecentResponses`: only the scanned
columns are populated; `Error` and `TotalTokens` keep their zero values, the
messages are rebuilt from the non-empty `system` and `prompt` columns, and
the timestamp is re-parsed from RFC3339 (second granularity, zero nanoseconds). -/
def rowToEntry (r : ResponseRow) : LogEntry :=
  { timestamp := { sec := r.datetimeUtc, nsec := 0 }
    model := r.model
    messages :=
      (if r.system != "" then [{ role := "system", content := r.system }] else []) ++
      (if r.prompt != "" then [{ role := "user", content := r.prompt }] else [])
    response := r.response
    promptTokens := r.inputTokens
    completionTokens := r.outputTokens
    totalTokens := 0
    estimatedCost := r.estimatedCost
    requestID := r.id
    durationMs := r.durationMs
    error := "" }

/-- `logger.GetRecentResponses`: nil on a disabled logger, else the `limit`
most recent rows by `datetime_utc` descending (a negative SQLite LIMIT means
no limit). -/
def GetRecentResponses (l : RequestLogger) (limit : Int) : Except String (List LogEntry) :=
  if !l.enabled then Except.ok []
  else
    let sorted := sortRowsDesc l.rows
    let taken := if limit < 0 then sorted else sorted.take limit.toNat
    Except.ok (taken.map rowToEntry)

/-- The fields of `types.ResponseData` that `processStream` reads: the id,
the usage sub-record, and the `Delta.Content` fragment of each choice (the other
JSON fields are never consulted by the decoder). -/
structure ResponseData where
  id : String
  usage : Usage
  choices : List String
deriving Repr, DecidableEq

/-- One trimmed line of the response body.  `done` is the exact sentinel
line; `data (some rd)` is a `data:`-prefixed line whose remainder the JSON
parser accepts as `rd`; `data none` is a `data:`-prefixed line the parser
rejects; `other` is any line without the prefix (ignored). -/
inductive StreamLine where
  | done : StreamLine
  | data : Option ResponseData → StreamLine
  | other : String → StreamLine
deriving Repr, DecidableEq

/-- `strings.Count(content, "\n") > 0`: the string has a newline character
(stated over the character list, which Lean can evaluate). -/
def hasLineBreak (s : String) : Bool := s.data.contains (Char.ofNat 10)

/-- The mutable state of `processStream`: the emission counter, the
accumulated text, the usage tally, the captured request id, and the record
of arguments passed to the sink `c.StreamCallback`. -/
structure StreamState where
  counter : Nat
  totalData : String
  usage : Usage
  requestID : String
  sinkCalls : List String
deriving Repr, DecidableEq

/-- Initial decoder state. -/
def initialStreamState : StreamState :=
  { counter := 0
    totalData := ""
    usage := { promptTokens := 0, completionTokens := 0, totalTokens := 0 }
    requestID := ""
    sinkCalls := [] }

/-- The body of `processStream` for one successfully parsed chunk: capture
the id on first non-empty appearance, overwrite the usage tally when the
total of the chunk is positive, then either suppress the fragment of the first choice
(while fewer than two fragments have been forwarded and the fragment has a
line break) or append it, call the sink with the full accumulated text, and
bump the counter. -/
def processChunk (st : StreamState) (rd : ResponseData) : StreamState :=
  let st1 := if st.requestID == "" && rd.id != "" then { st with requestID := rd.id } else st
  let st2 := if rd.usage.totalTokens > 0 then { st1 with usage := rd.usage } else st1
  match rd.choices with
  | [] => st2
  | content :: _ =>
      if st2.counter < 2 && hasLineBreak content then st2
      else
        let newTotal := st2.totalData ++ content
        { st2 with
            totalData := newTotal
            sinkCalls := st2.sinkCalls ++ [newTotal]
            counter := st2.counter + 1 }

/-- The line loop of `processStream`: stop at the sentinel or stream end,
skip lines whose JSON does not parse and lines without the prefix. -/
def runStream : List StreamLine → StreamState → StreamState
  | [], st => st
  | StreamLine.done :: _, st => st
  | StreamLine.data none :: rest, st => runStream rest st
  | StreamLine.data (some rd) :: rest, st => runStream rest (processChunk st rd)
  | StreamLine.other _ :: rest, st => runStream rest st

/-- `processStream`: the final state plus the returned error, which is
always nil in the source. -/
def processStream (body : List StreamLine) : StreamState × Option String :=
  (runStream body initialStreamState, none)

/-- `types.ModelConfig` (the prompt is the initial conversation prefix). -/
structure ModelConfig where
  modelName : String
  endpoint : String
  auth : String
  orgID : String
  prompt : List Message
deriving Repr, DecidableEq

/-- The outbound `types.Payload` as `Query` builds it. -/
structure Payload where
  model : String
  messages : List Message
  temperature : ℚ
  stream : Bool
  includeUsage : Bool
deriving Repr, DecidableEq

/-- The external HTTP outcome of `httpClient.Do`: a transport failure with
an error text, or a response with a status code and body lines. -/
inductive HTTPOutcome where
  | transportFailure : String → HTTPOutcome
  | response : Nat → List StreamLine → HTTPOutcome
deriving Repr, DecidableEq

/-- `llm.LLMClient`: the configuration, the running conversation prefix, and
the best-effort logger (nil when construction failed). -/
structure LLMClient where
  config : ModelConfig
  messages : List Message
  logger : Option RequestLogger
deriving Repr, DecidableEq

/-- `llm.NewLLMClient`: the prefix starts as a copy of the configured prompt. -/
def NewLLMClient (config : ModelConfig) (lg : Option RequestLogger) : LLMClient :=
  { config := config, messages := config.prompt, logger := lg }

/-- `llm.callStream` (the request building and the network call are
external; `resp.Status` is modelled by the decimal status code).  On a
non-200 status the body is never decoded.  The error return of `processStream` is
nil in the source, so the success value carries the decoded state directly. -/
def callStream (payload : Payload) (http : HTTPOutcome) :
    Except String (Message × Usage × String × List String) :=
  match http with
  | HTTPOutcome.transportFailure msg =>
      Except.error ("failed to make the API request: " ++ msg)
  | HTTPOutcome.response status body =>
      if status != 200 then Except.error ("API request failed: " ++ toString status)
      else
        let st := (processStream body).1
        Except.ok ({ role := "assistant", content := st.totalData },
                   st.usage, st.requestID, st.sinkCalls)

/-- The best-effort logging block of `Query`: skipped when the logger is
nil; a failed write only prints a warning and leaves the state unchanged. -/
def logAttempt (c : LLMClient) (entry : LogEntry) : LLMClient :=
  match c.logger with
  | none => c
  | some lg =>
      match LogResponse lg entry with
      | Except.ok lg2 => { c with logger := some lg2 }
      | Except.error _ => c

/-- The result of one `Query` call: the returned answer and error, plus the
client state afterwards. -/
structure QueryOutcome where
  answer : String
  err : Option String
  client : LLMClient
deriving Repr, DecidableEq

/-- `llm.Query`.  The user message is appended to a local copy `messages`
of the prefix used for the payload and the log entry; on success only the
assistant message is appended to the field `c.messages` of the client (the source
appends the user message to the local slice, never to the field).  Failure
paths log with zero usage, an empty request id and an empty response text. -/
def Query (c : LLMClient) (query : String) (http : HTTPOutcome) (now : GoTime)
    (durationMs : Int) : QueryOutcome :=
  let messages := c.messages ++ [{ role := "user", content := query }]
  let payload : Payload :=
    { model := c.config.modelName, messages := messages, temperature := 0,
      stream := true, includeUsage := true }
  match callStream payload http with
  | Except.error e =>
      let entry := CreateLogEntry now c.config.modelName messages ""
        { promptTokens := 0, completionTokens := 0, totalTokens := 0 } "" durationMs (some e)
      { answer := "", err := some e, client := logAttempt c entry }
  | Except.ok (message, usage, requestID, _) =>
      let c2 := { c with messages := c.messages ++ [message] }
      let entry := CreateLogEntry now c.config.modelName messages message.content usage
        requestID durationMs none
      { answer := message.content, err := none, client := logAttempt c2 entry }

/-- Appending to the empty string is the identity. -/
theorem string_empty_append (s : String) : "" ++ s = s := by
  cases s
  show String.mk ([] ++ _) = _
  simp

/-- A string append with a non-empty left part is non-empty. -/
theorem append_ne_empty_of_left (s t : String) (hs : s ≠ "") : s ++ t ≠ "" := by
  intro h
  apply hs
  have hd := congrArg String.data h
  rw [String.data_append] at hd
  rw [show ("" : String).data = [] from rfl] at hd
  have h1 := (List.append_eq_nil.mp hd).1
  cases s
  simp at h1
  simp [h1]

/-- Claim C7: for every model in the pricing table and non-negative token
counts, `CalculateCost` is the per-million linear formula; for a model
absent from the table it is 0, returned as an ordinary value. -/
theorem c7_cost_formula (m : String) (p c : Int) (hp : 0 ≤ p) (hc : 0 ≤ c) :
    (∀ pricing, modelPricing m = some pricing →
      CalculateCost m p c = (p : ℚ) / 1000000 * pricing.inputPerMillion +
        (c : ℚ) / 1000000 * pricing.outputPerMillion)
    ∧ (modelPricing m = none → CalculateCost m p c = 0) := by
  constructor
  · intro pricing hpr
    unfold CalculateCost
    rw [hpr]
  · intro hn
    unfold CalculateCost
    rw [hn]

/-- Witness for C7 at model gpt-4.1-mini with 45 prompt and 12 completion tokens. -/
theorem c7_witness :
    0 ≤ (45 : Int) ∧ 0 ≤ (12 : Int) ∧
    CalculateCost "gpt-4.1-mini" 45 12 =
      (45 : ℚ) / 1000000 * 0.15 + (12 : ℚ) / 1000000 * 0.60 :=
  ⟨by decide, by decide,
    (c7_cost_formula "gpt-4.1-mini" 45 12 (by decide) (by decide)).1
      { inputPerMillion := 0.15, outputPerMillion := 0.60 } rfl⟩

/-- Counterexample for C4: the cost of 45 prompt and 12 completion tokens on
gpt-4.1-mini is 0.00001395 USD, which is not the claimed 0.0000140 (the gap,
5e-8, is far beyond float64 rounding of this expression). -/
theorem c4_counterexample :
    CalculateCost "gpt-4.1-mini" 45 12 = (0.00001395 : ℚ) ∧
    (0.00001395 : ℚ) ≠ (0.0000140 : ℚ) := by
  constructor
  · show (45 : ℚ) / 1000000 * 0.15 + (12 : ℚ) / 1000000 * 0.60 = (0.00001395 : ℚ)
    norm_num
  · norm_num

/-- Claim C4 (amended): the entry built for a gpt-4.1-mini query whose usage
reports 45 prompt and 12 completion tokens (total 57) carries
total_tokens = 57 and estimated_cost = 0.00001395 USD. -/
theorem c4_entry_tokens_and_cost (now : GoTime) (msgs : List Message)
    (resp reqId : String) (dur : Int) :
    (CreateLogEntry now "gpt-4.1-mini" msgs resp
      { promptTokens := 45, completionTokens := 12, totalTokens := 57 }
      reqId dur none).totalTokens = 57
    ∧ (CreateLogEntry now "gpt-4.1-mini" msgs resp
      { promptTokens := 45, completionTokens := 12, totalTokens := 57 }
      reqId dur none).estimatedCost = (0.00001395 : ℚ) := by
  refine ⟨rfl, ?_⟩
  show CalculateCost "gpt-4.1-mini" 45 12 = (0.00001395 : ℚ)
  show (45 : ℚ) / 1000000 * 0.15 + (12 : ℚ) / 1000000 * 0.60 = (0.00001395 : ℚ)
  norm_num

/-- A freshly opened, enabled ledger with an empty `responses` table. -/
def freshEnabledLogger : RequestLogger := { enabled := true, rows := [] }

/-- A concrete entry whose usage carries a non-zero total token count. -/
def c3Entry : LogEntry :=
  { timestamp := { sec := 1700000000, nsec := 123456789 }
    model := "gpt-4.1-mini"
    messages := [{ role := "system", content := "sys" },
                 { role := "user", content := "list files in current directory" }]
    response := "ls"
    promptTokens := 45
    completionTokens := 12
    totalTokens := 57
    estimatedCost := 0.00001395
    requestID := "req-1"
    durationMs := 250
    error := "" }

/-- Counterexample for C3: persisting an entry with total_tokens = 57 into
an empty enabled ledger and reading it back via recent(1) yields an entry
whose total token count is 0, not 57 — the schema has no total_tokens
column. -/
theorem c3_counterexample :
    LogResponse freshEnabledLogger c3Entry
      = Except.ok { enabled := true, rows := [entryToRow c3Entry] }
    ∧ GetRecentResponses { enabled := true, rows := [entryToRow c3Entry] } 1
      = Except.ok [rowToEntry (entryToRow c3Entry)]
    ∧ (rowToEntry (entryToRow c3Entry)).totalTokens = 0
    ∧ c3Entry.totalTokens = 57 :=
  ⟨rfl, rfl, rfl, rfl⟩

/-- Claim C3 (amended): for every entry persisted into an empty enabled
ledger, recent(1) returns exactly one entry whose model, prompt tokens,
completion tokens, cost, request id agree with the persisted entry and
whose timestamp agrees at second granularity; the read-back total token
count is always 0. -/
theorem c3_roundtrip (e : LogEntry) :
    LogResponse freshEnabledLogger e
      = Except.ok { enabled := true, rows := [entryToRow e] }
    ∧ GetRecentResponses { enabled := true, rows := [entryToRow e] } 1
      = Except.ok [rowToEntry (entryToRow e)]
    ∧ (rowToEntry (entryToRow e)).model = e.model
    ∧ (rowToEntry (entryToRow e)).promptTokens = e.promptTokens
    ∧ (rowToEntry (entryToRow e)).completionTokens = e.completionTokens
    ∧ (rowToEntry (entryToRow e)).estimatedCost = e.estimatedCost
    ∧ (rowToEntry (entryToRow e)).requestID = e.requestID
    ∧ (rowToEntry (entryToRow e)).timestamp.sec = e.timestamp.sec
    ∧ (rowToEntry (entryToRow e)).totalTokens = 0 :=
  ⟨rfl, rfl, rfl, rfl, rfl, rfl, rfl, rfl, rfl⟩

/-- The ledger value constructed when the opt-out flag is set. -/
def disabledLogger : RequestLogger := { enabled := false, rows := [] }

/-- Claim C8: with the opt-out environment flag set to any non-empty value,
construction succeeds in the disabled state; persisting any entry is a
no-op returning success and writing no row, and recent returns an empty
sequence without error, for every entry and every limit. -/
theorem c8_disabled_noop (env : String) (h : env ≠ "") :
    NewRequestLogger env = Except.ok disabledLogger
    ∧ (∀ e, LogResponse disabledLogger e = Except.ok disabledLogger)
    ∧ (∀ n, GetRecentResponses disabledLogger n = Except.ok []) := by
  refine ⟨?_, fun e => rfl, fun n => rfl⟩
  unfold NewRequestLogger
  simp [h, disabledLogger]

/-- Witness for C8 at the flag value "1". -/
theorem c8_witness :
    ("1" : String) ≠ ""
    ∧ (NewRequestLogger "1" = Except.ok disabledLogger
      ∧ (∀ e, LogResponse disabledLogger e = Except.ok disabledLogger)
      ∧ (∀ n, GetRecentResponses disabledLogger n = Except.ok [])) :=
  ⟨by decide, c8_disabled_noop "1" (by decide)⟩

/-- Claim C6: on an enabled ledger with no row carrying the given id, the
first insert with that id succeeds and a second insert with the same id —
the empty id included — fails with an error surfaced to the caller, the
previously stored row remaining in place (no upsert). -/
theorem c6_duplicate_id (lg : RequestLogger) (e1 e2 : LogEntry)
    (hen : lg.enabled = true)
    (hfresh : lg.rows.any (fun r => r.id == e1.requestID) = false)
    (hid : e2.requestID = e1.requestID) :
    LogResponse lg e1 = Except.ok { lg with rows := lg.rows ++ [entryToRow e1] }
    ∧ LogResponse { lg with rows := lg.rows ++ [entryToRow e1] } e2
        = Except.error "UNIQUE constraint failed: responses.id" := by
  constructor
  · unfold LogResponse
    simp [hen, hfresh]
  · unfold LogResponse
    simp [hen, entryToRow, hid]

/-- A concrete entry with the empty request id of a failed request. -/
def c6EmptyIdEntry : LogEntry :=
  { timestamp := { sec := 100, nsec := 0 }
    model := "gpt-4.1-mini"
    messages := [{ role := "user", content := "hi" }]
    response := ""
    promptTokens := 0
    completionTokens := 0
    totalTokens := 0
    estimatedCost := 0
    requestID := ""
    durationMs := 1
    error := "API request failed: 500 Internal Server Error" }

/-- Witness for C6: two inserts with the empty id on a fresh enabled ledger. -/
theorem c6_witness :
    freshEnabledLogger.enabled = true
    ∧ freshEnabledLogger.rows.any (fun r => r.id == c6EmptyIdEntry.requestID) = false
    ∧ c6EmptyIdEntry.requestID = c6EmptyIdEntry.requestID
    ∧ (LogResponse freshEnabledLogger c6EmptyIdEntry
        = Except.ok { freshEnabledLogger with
            rows := freshEnabledLogger.rows ++ [entryToRow c6EmptyIdEntry] }
      ∧ LogResponse { freshEnabledLogger with
            rows := freshEnabledLogger.rows ++ [entryToRow c6EmptyIdEntry] } c6EmptyIdEntry
        = Except.error "UNIQUE constraint failed: responses.id") :=
  ⟨rfl, rfl, rfl,
    c6_duplicate_id freshEnabledLogger c6EmptyIdEntry c6EmptyIdEntry rfl rfl rfl⟩

/-- Claim C10: every entry returned by `GetRecentResponses` has an empty
error string and a zero total token count, whatever was persisted — the
schema stores neither field and read-back does not reconstruct them. -/
theorem c10_readback_defaults (l : RequestLogger) (n : Int) (es : List LogEntry)
    (e : LogEntry) (hes : GetRecentResponses l n = Except.ok es) (he : e ∈ es) :
    e.error = "" ∧ e.totalTokens = 0 := by
  unfold GetRecentResponses at hes
  cases hl : l.enabled with
  | false =>
      simp [hl] at hes
      subst hes
      cases he
  | true =>
      simp [hl] at hes
      subst hes
      obtain ⟨r, hr, rfl⟩ := List.mem_map.mp he
      exact ⟨rfl, rfl⟩

/-- A concrete stored row for the C10 witness. -/
def c10Row : ResponseRow :=
  { id := "req-9"
    model := "gpt-4o"
    prompt := "p"
    system := "s"
    response := "ok"
    conversationId := none
    durationMs := 10
    datetimeUtc := 200
    inputTokens := 3
    outputTokens := 4
    estimatedCost := 0 }

/-- Witness for C10 on a one-row ledger. -/
theorem c10_witness :
    (rowToEntry c10Row).error = "" ∧ (rowToEntry c10Row).totalTokens = 0 :=
  c10_readback_defaults { enabled := true, rows := [c10Row] } 1
    [rowToEntry c10Row] (rowToEntry c10Row) rfl (by simp)

/-- The zero usage tally. -/
def zeroUsage : Usage := { promptTokens := 0, completionTokens := 0, totalTokens := 0 }

/-- A parsed `data:` line carrying one content fragment (empty id, no usage). -/
def contentChunk (f : String) : StreamLine :=
  StreamLine.data (some { id := "", usage := zeroUsage, choices := [f] })

/-- The three-fragment stream of the C2 scenario: the first two fragments
carry a line break, the third does not, then the sentinel. -/
def c2Body : List StreamLine :=
  [contentChunk "a\n", contentChunk "b\n", contentChunk "c", StreamLine.done]

/-- Counterexample for C2: on the scenario stream the sink fires exactly
once, but the final accumulated text is the third fragment alone — the two
suppressed fragments are dropped, not retained. -/
theorem c2_counterexample :
    (processStream c2Body).1.sinkCalls = ["c"]
    ∧ (processStream c2Body).1.totalData = "c"
    ∧ ("c" : String) ≠ "a\n" ++ "b\n" ++ "c" := by
  refine ⟨by decide, by decide, by decide⟩

/-- Claim C2 (amended): a fragment is suppressed when fewer than two
fragments have been forwarded so far and it contains a line break, and a
suppressed fragment is dropped entirely — neither forwarded to the sink nor
appended to the accumulated text.  For three fragments of which the first
two each contain a line break and the third does not, exactly one sink
invocation occurs and the final accumulated text is the third fragment
alone. -/
theorem c2_suppression_drops (f1 f2 f3 : String)
    (h1 : hasLineBreak f1 = true) (h2 : hasLineBreak f2 = true)
    (h3 : hasLineBreak f3 = false) :
    (processStream [contentChunk f1, contentChunk f2, contentChunk f3,
        StreamLine.done]).1.sinkCalls = [f3]
    ∧ (processStream [contentChunk f1, contentChunk f2, contentChunk f3,
        StreamLine.done]).1.totalData = f3 := by
  constructor <;>
    simp [processStream, runStream, processChunk, contentChunk, zeroUsage,
      initialStreamState, h1, h2, h3, string_empty_append]

/-- Witness for C2 (amended) on the fragments of the scenario. -/
theorem c2_witness :
    hasLineBreak "a\n" = true ∧ hasLineBreak "b\n" = true ∧ hasLineBreak "c" = false
    ∧ ((processStream [contentChunk "a\n", contentChunk "b\n", contentChunk "c",
          StreamLine.done]).1.sinkCalls = ["c"]
      ∧ (processStream [contentChunk "a\n", contentChunk "b\n", contentChunk "c",
          StreamLine.done]).1.totalData = "c") :=
  ⟨by decide, by decide, by decide,
    c2_suppression_drops "a\n" "b\n" "c" (by decide) (by decide) (by decide)⟩

/-- The C9 scenario stream when the valid fragment itself carries a line
break: one valid content line, one line of invalid JSON, the sentinel. -/
def c9BadBody : List StreamLine :=
  [contentChunk "a\n", StreamLine.data none, StreamLine.done]

/-- Counterexample for C9 as universally stated: when the single valid
fragment of the valid line contains a line break, the decoder returns the empty
accumulated text, not the content of the valid line (the suppression rule drops
it), though still with no error. -/
theorem c9_counterexample :
    (processStream c9BadBody).1.totalData = ""
    ∧ ("" : String) ≠ "a\n"
    ∧ (processStream c9BadBody).2 = none :=
  ⟨by decide, by decide, rfl⟩

/-- Claim C9 (amended): for a stream of one valid content line whose
fragment has no line break, one line of invalid JSON, and the sentinel, the
decoder returns exactly the valid fragment, forwards it once, and reports
no error — the malformed line is skipped, never aborting the decode. -/
theorem c9_skip_malformed (f : String) (hf : hasLineBreak f = false) :
    (processStream [contentChunk f, StreamLine.data none, StreamLine.done]).1.totalData = f
    ∧ (processStream [contentChunk f, StreamLine.data none,
        StreamLine.done]).1.sinkCalls = [f]
    ∧ (processStream [contentChunk f, StreamLine.data none, StreamLine.done]).2 = none := by
  refine ⟨?_, ?_, rfl⟩ <;>
    simp [processStream, runStream, processChunk, contentChunk, zeroUsage,
      initialStreamState, hf, string_empty_append]

/-- Witness for C9 (amended) at the fragment "hello". -/
theorem c9_witness :
    hasLineBreak "hello" = false
    ∧ ((processStream [contentChunk "hello", StreamLine.data none,
          StreamLine.done]).1.totalData = "hello"
      ∧ (processStream [contentChunk "hello", StreamLine.data none,
          StreamLine.done]).1.sinkCalls = ["hello"]
      ∧ (processStream [contentChunk "hello", StreamLine.data none,
          StreamLine.done]).2 = none) :=
  ⟨by decide, c9_skip_malformed "hello" (by decide)⟩

/-- The entry `Query` builds and persists when `callStream` reports a
failing status: empty response text, zero usage, empty request id, and the
error text of the non-200 status. -/
def failEntry (c : LLMClient) (q : String) (status : Nat) (now : GoTime)
    (dur : Int) : LogEntry :=
  CreateLogEntry now c.config.modelName
    (c.messages ++ [{ role := "user", content := q }]) "" zeroUsage "" dur
    (some ("API request failed: " ++ toString status))

/-- Claim C5: a query whose response carries a non-2xx status returns the
empty answer with an error, and — on a working enabled ledger with no
colliding empty id — exactly one entry is persisted for the attempt, whose
error text is non-empty and whose response text is empty. -/
theorem c5_non2xx_logged (c : LLMClient) (q : String) (status : Nat)
    (body : List StreamLine) (now : GoTime) (dur : Int) (lg : RequestLogger)
    (hlg : c.logger = some lg) (hen : lg.enabled = true)
    (hfree : lg.rows.any (fun r => r.id == "") = false)
    (hst : status < 200 ∨ 300 ≤ status) :
    (Query c q (HTTPOutcome.response status body) now dur).answer = ""
    ∧ (Query c q (HTTPOutcome.response status body) now dur).err
        = some ("API request failed: " ++ toString status)
    ∧ (failEntry c q status now dur).error ≠ ""
    ∧ (failEntry c q status now dur).response = ""
    ∧ (Query c q (HTTPOutcome.response status body) now dur).client.logger
        = some { lg with rows := lg.rows ++ [entryToRow (failEntry c q status now dur)] } := by
  have hne : status ≠ 200 := by omega
  have hbe : (status != 200) = true := by simp [hne]
  refine ⟨?_, ?_, ?_, rfl, ?_⟩
  · simp [Query, callStream, hbe]
  · simp [Query, callStream, hbe]
  · show ("API request failed: " ++ toString status) ≠ ""
    exact append_ne_empty_of_left _ _ (by decide)
  · simp [Query, callStream, hbe, logAttempt, hlg, LogResponse, hen, hfree,
      failEntry, CreateLogEntry, zeroUsage]

/-- A concrete client with a fresh enabled ledger for the C5 witness. -/
def c5Client : LLMClient :=
  { config := { modelName := "gpt-4.1-mini", endpoint := "https://api.openai.com/v1",
                auth := "k", orgID := "", prompt := [] }
    messages := []
    logger := some freshEnabledLogger }

/-- Witness for C5 at status 404 on a fresh enabled ledger. -/
theorem c5_witness :
    c5Client.logger = some freshEnabledLogger
    ∧ freshEnabledLogger.enabled = true
    ∧ freshEnabledLogger.rows.any (fun r => r.id == "") = false
    ∧ ((404 : Nat) < 200 ∨ 300 ≤ 404)
    ∧ ((Query c5Client "q" (HTTPOutcome.response 404 []) { sec := 0, nsec := 0 } 5).answer = ""
      ∧ (Query c5Client "q" (HTTPOutcome.response 404 []) { sec := 0, nsec := 0 } 5).err
          = some ("API request failed: " ++ toString (404 : Nat))
      ∧ (failEntry c5Client "q" 404 { sec := 0, nsec := 0 } 5).error ≠ ""
      ∧ (failEntry c5Client "q" 404 { sec := 0, nsec := 0 } 5).response = ""
      ∧ (Query c5Client "q" (HTTPOutcome.response 404 []) { sec := 0, nsec := 0 } 5).client.logger
          = some { freshEnabledLogger with rows := freshEnabledLogger.rows ++
              [entryToRow (failEntry c5Client "q" 404 { sec := 0, nsec := 0 } 5)] }) :=
  ⟨rfl, rfl, rfl, Or.inr (by decide),
    c5_non2xx_logged c5Client "q" 404 [] { sec := 0, nsec := 0 } 5
      freshEnabledLogger rfl rfl rfl (Or.inr (by decide))⟩

/-- The configuration and client of the C1 failing input: empty initial
prompt, no logger. -/
def c1Client : LLMClient :=
  NewLLMClient
    { modelName := "gpt-4.1-mini", endpoint := "https://api.openai.com/v1",
      auth := "k", orgID := "", prompt := [] }
    none

/-- The response body of the C1 failing input: one content chunk, then the
sentinel. -/
def c1Body : List StreamLine :=
  [StreamLine.data (some { id := "req-1", usage := zeroUsage, choices := ["hello"] }),
   StreamLine.done]

/-- Claim C1 is violated by the source: `Query` appends the user message to
a local copy of the prefix only (`messages := c.messages` followed by
`messages = append(messages, ...)`), so after a successful call the
prefix of the client has gained the assistant message but not the user message,
and the payload of the next query does not carry the earlier query text. -/
theorem c1_user_message_dropped :
    (Query c1Client "hi" (HTTPOutcome.response 200 c1Body) { sec := 0, nsec := 0 } 5).answer
      = "hello"
    ∧ (Query c1Client "hi" (HTTPOutcome.response 200 c1Body) { sec := 0, nsec := 0 } 5).err
      = none
    ∧ (Query c1Client "hi" (HTTPOutcome.response 200 c1Body)
        { sec := 0, nsec := 0 } 5).client.messages
      = [{ role := "assistant", content := "hello" }]
    ∧ (Query c1Client "hi" (HTTPOutcome.response 200 c1Body)
        { sec := 0, nsec := 0 } 5).client.messages
      ≠ c1Client.messages ++ [{ role := "user", content := "hi" },
          { role := "assistant", content := "hello" }] := by
  refine ⟨by decide, by decide, by decide, by decide⟩
